import Mathlib

/-!
Shallow embedding of the vm-manager repository (FastAPI + libvirt VM
lifecycle service).  The hypervisor, the guest, the `virsh` snapshot tool,
the `ansible-playbook` subprocess and the SSH upstream are external
collaborators; their responses are modelled as explicit, scripted behaviour
flags carried by the state (`DomBehavior`, `World`, `RunResult`, `TermEnv`).
Each controller operation from `src/core/vm_controller.py`,
`src/core/pool_manager.py` and `src/main.py` is translated into a pure
function from a `World` to a result, an updated `World`, and the list of
side-effecting calls (`Ev`) it issued, in the order the Python code issues
them.
-/

namespace VmManager

/-- Libvirt domain power states; `code` gives the numeric state of
`dom.info()[0]` (0..7) used throughout the Python sources. -/
inductive PowerState
  | noState
  | running
  | blocked
  | paused
  | shuttingDown
  | shutOff
  | crashed
  | pmSuspended
deriving DecidableEq, Repr

def PowerState.code : PowerState → Nat
  | .noState => 0
  | .running => 1
  | .blocked => 2
  | .paused => 3
  | .shuttingDown => 4
  | .shutOff => 5
  | .crashed => 6
  | .pmSuspended => 7

/-- Scripted behaviour of one defined libvirt domain: its current state plus
which libvirt calls on it the environment makes fail, and how the guest
reacts to a graceful-shutdown request (`respondsAfter = some k`: the guest
is observed shut off from the k-th one-second poll on; `none`: it ignores
the request).  `pollInfoFailsAt = some i` scripts a `dom.info()` failure at
poll iteration `i` of `stop_vm` (a connection that drops mid-operation). -/
structure DomBehavior where
  state : PowerState
  infoFails : Bool
  shutdownFails : Bool
  destroyFails : Bool
  undefineFails : Bool
  createFails : Bool
  resumeFails : Bool
  respondsAfter : Option Nat
  pollInfoFailsAt : Option Nat
deriving DecidableEq, Repr

/-- The world the controller acts on: the hypervisor's defined domains
(name-keyed), the set of VM names whose disk image exists under
`VM_STORAGE_PATH/<name>.qcow2`, and environment flags for the base image,
`shutil.copy2`, `conn.defineXML`, the behaviour assigned to freshly defined
domains, and the `virsh` snapshot subprocess. -/
structure World where
  doms : List (String × DomBehavior)
  disks : List String
  baseImage : Bool
  copyFails : Bool
  defineFails : Bool
  freshDom : DomBehavior
  virshMissing : Bool
  snapshotCmdFails : Bool
  nextUuid : Nat
deriving DecidableEq, Repr

/-- Typed errors corresponding to the `HTTPException`s the Python code
raises: 404 not found, 400 duplicate domain, 400 image-path collision,
500 base image missing, 500 copy failure, 500 libvirt failure
(define / power-on / inspect / forced-stop / undefine), 409 conflict,
500 ansible provisioning failure. -/
inductive Err
  | notFound
  | alreadyExists
  | imageExists
  | baseImageMissing
  | copyFailed
  | libvirtError
  | conflict
  | provisioningFailed
deriving DecidableEq, Repr

/-- Side-effecting calls an operation issues, in program order.  Disk events
are the only disk I/O the controller performs. -/
inductive Ev
  | snapshotAttempt (vm : String)
  | shutdownReq (vm : String)
  | destroyReq (vm : String)
  | diskCopy (vm : String)
  | diskRemove (vm : String)
  | defineReq (vm : String)
  | powerOnReq (vm : String)
  | undefineReq (vm : String)
  | resumeReq (vm : String)
  | vmCreate (vm : String) (memoryMb vcpus : Nat) (owner : Option String)
deriving DecidableEq, Repr

instance exceptDecEq {ε α : Type} [DecidableEq ε] [DecidableEq α] :
    DecidableEq (Except ε α)
  | .error e, .error f =>
    if h : e = f then .isTrue (by rw [h])
    else .isFalse (by intro hc; cases hc; exact h rfl)
  | .error _, .ok _ => .isFalse (by intro hc; cases hc)
  | .ok _, .error _ => .isFalse (by intro hc; cases hc)
  | .ok a, .ok b =>
    if h : a = b then .isTrue (by rw [h])
    else .isFalse (by intro hc; cases hc; exact h rfl)

/-- Result of one controller operation: the returned value or raised error,
the world afterwards, and the calls issued. -/
structure Outcome (α : Type) where
  result : Except Err α
  world : World
  events : List Ev
deriving DecidableEq, Repr

def Outcome.ok? {α : Type} (o : Outcome α) : Bool :=
  match o.result with
  | .ok _ => true
  | .error _ => false

/-- `conn.lookupByName` over the domain table. -/
def domsLookup : List (String × DomBehavior) → String → Option DomBehavior
  | [], _ => none
  | (k, d) :: t, n => if k = n then some d else domsLookup t n

def lookupDom (w : World) (n : String) : Option DomBehavior :=
  domsLookup w.doms n

def domState (w : World) (n : String) : Option PowerState :=
  (lookupDom w n).map DomBehavior.state

def domsSetState : List (String × DomBehavior) → String → PowerState → List (String × DomBehavior)
  | [], _, _ => []
  | (k, d) :: t, n, s =>
    if k = n then (k, { d with state := s }) :: domsSetState t n s
    else (k, d) :: domsSetState t n s

def setDomState (w : World) (n : String) (s : PowerState) : World :=
  { w with doms := domsSetState w.doms n s }

def domsRemove : List (String × DomBehavior) → String → List (String × DomBehavior)
  | [], _ => []
  | (k, d) :: t, n => if k = n then domsRemove t n else (k, d) :: domsRemove t n

def removeDom (w : World) (n : String) : World :=
  { w with doms := domsRemove w.doms n }

def addDom (w : World) (n : String) (d : DomBehavior) : World :=
  { w with doms := (n, d) :: w.doms }

def diskMem : List String → String → Bool
  | [], _ => false
  | k :: t, n => if k = n then true else diskMem t n

/-- `os.path.exists(VM_STORAGE_PATH / f"{name}.qcow2")`. -/
def hasDisk (w : World) (n : String) : Bool :=
  diskMem w.disks n

def addDisk (w : World) (n : String) : World :=
  { w with disks := n :: w.disks }

def disksRemove : List String → String → List String
  | [], _ => []
  | k :: t, n => if k = n then disksRemove t n else k :: disksRemove t n

def removeDisk (w : World) (n : String) : World :=
  { w with disks := disksRemove w.disks n }

def bumpUuid (w : World) : World :=
  { w with nextUuid := w.nextUuid + 1 }

/-- Constants from `config/settings.py` (the shipped defaults). -/
def defaultMemoryMb : Nat := 1024

def defaultVcpu : Nat := 1

/-- `stop_vm`'s policy constants: `timeout_sec = 15`, `interval = 1`. -/
def stopTimeoutSec : Nat := 15

def vmStoragePath : String := "vm-images/instances"

def diskImagePath (n : String) : String :=
  vmStoragePath ++ "/" ++ n ++ ".qcow2"

/-- Return value of `VMController.create_vm` on success. -/
structure VmInfo where
  name : String
  uuid : Nat
  image : String
  memory_mb : Nat
  vcpus : Nat
  owner : Option String
deriving DecidableEq, Repr

/-- `BackupManager.create_snapshot`: a `subprocess.CalledProcessError` from
`virsh` is caught and logged and the snapshot name is returned anyway; only
a missing `virsh` binary (`FileNotFoundError`) escapes to the caller. -/
def backupCreateSnapshot (w : World) (vmName : String) : Except Unit String :=
  if w.virshMissing then .error ()
  else if w.snapshotCmdFails then .ok (vmName ++ "-snapshot")
  else .ok (vmName ++ "-snapshot")

/-- `VMController._clone_base_image`. -/
def clone_base_image (w : World) (name : String) : Outcome String :=
  if w.baseImage = false then ⟨.error .baseImageMissing, w, []⟩
  else if hasDisk w name then ⟨.error .imageExists, w, []⟩
  else if w.copyFails then ⟨.error .copyFailed, w, [.diskCopy name]⟩
  else ⟨.ok (diskImagePath name), addDisk w name, [.diskCopy name]⟩

/-- `VMController.create_vm`.  `memory_mb or DEFAULT_MEMORY_MB` maps both
`None` and `0` to the default (Python falsiness).  On `defineXML` or
`dom.create()` failure the raised `HTTPException(500)` propagates and the
cloned disk image is left in place. -/
def create_vm (w : World) (name : String) (memoryMb vcpus : Option Nat)
    (owner : Option String) : Outcome VmInfo :=
  if (lookupDom w name).isSome then ⟨.error .alreadyExists, w, []⟩
  else
    let mem := match memoryMb with
      | some m => if m = 0 then defaultMemoryMb else m
      | none => defaultMemoryMb
    let vc := match vcpus with
      | some v => if v = 0 then defaultVcpu else v
      | none => defaultVcpu
    match clone_base_image w name with
    | ⟨.error e, w1, evs⟩ => ⟨.error e, w1, evs⟩
    | ⟨.ok img, w1, evs⟩ =>
      let vmUuid := w1.nextUuid
      let w1 := bumpUuid w1
      let evs := evs ++ [.defineReq name]
      if w1.defineFails then ⟨.error .libvirtError, w1, evs⟩
      else
        let w2 := addDom w1 name { w1.freshDom with state := .shutOff }
        let evs := evs ++ [.powerOnReq name]
        if w2.freshDom.createFails then ⟨.error .libvirtError, w2, evs⟩
        else
          ⟨.ok { name := name, uuid := vmUuid, image := img,
                 memory_mb := mem, vcpus := vc, owner := owner },
           setDomState w2 name .running,
           evs ++ [.vmCreate name mem vc owner]⟩

/-- `VMController.start_vm`. -/
def start_vm (w : World) (name : String) : Outcome Unit :=
  match lookupDom w name with
  | none => ⟨.error .notFound, w, []⟩
  | some d =>
    if d.infoFails then ⟨.error .libvirtError, w, []⟩
    else if d.state = .running then ⟨.error .conflict, w, []⟩
    else if d.state = .paused then
      if d.resumeFails then ⟨.error .libvirtError, w, [.resumeReq name]⟩
      else ⟨.ok (), setDomState w name .running, [.resumeReq name]⟩
    else
      if d.createFails then ⟨.error .libvirtError, w, [.powerOnReq name]⟩
      else ⟨.ok (), setDomState w name .running, [.powerOnReq name]⟩

/-- Whether the guest has reached shut off by poll instant `i` after a
successful graceful-shutdown request. -/
def guestShutoffBy (d : DomBehavior) (i : Nat) : Bool :=
  match d.respondsAfter with
  | some k => decide (k ≤ i)
  | none => false

inductive PollOut
  | graceful
  | inspectFail
  | timedOut
deriving DecidableEq, Repr

/-- The `while waited < timeout_sec` polling loop of `stop_vm`: at each
iteration `dom.info()` is called (it may itself raise, surfacing a 500),
then the state is compared with shut off. -/
def pollForShutoff (d : DomBehavior) (shutdownOk : Bool) : Nat → Nat → PollOut
  | _, 0 => .timedOut
  | i, fuel + 1 =>
    if d.pollInfoFailsAt = some i then .inspectFail
    else if shutdownOk && guestShutoffBy d i then .graceful
    else pollForShutoff d shutdownOk (i + 1) fuel

/-- `VMController.stop_vm`: no-op when already shut off; otherwise
best-effort snapshot (result discarded), graceful-shutdown request (failure
logged and fallen through), bounded polling, then forced `destroy()`. -/
def stop_vm (w : World) (name : String) : Outcome Unit :=
  match lookupDom w name with
  | none => ⟨.error .notFound, w, []⟩
  | some d =>
    if d.infoFails then ⟨.error .libvirtError, w, []⟩
    else if d.state = .shutOff then ⟨.ok (), w, []⟩
    else
      let _snap := backupCreateSnapshot w name
      let shutdownOk := !d.shutdownFails
      let evs := [Ev.snapshotAttempt name, Ev.shutdownReq name]
      match pollForShutoff d shutdownOk 0 stopTimeoutSec with
      | .graceful => ⟨.ok (), setDomState w name .shutOff, evs⟩
      | .inspectFail => ⟨.error .libvirtError, w, evs⟩
      | .timedOut =>
        if d.destroyFails then ⟨.error .libvirtError, w, evs ++ [.destroyReq name]⟩
        else ⟨.ok (), setDomState w name .shutOff, evs ++ [.destroyReq name]⟩

/-- `VMController.delete_vm`: 404 when the domain is missing (before any
disk I/O); best-effort forced power-off with errors swallowed; then, in one
`try` block, `undefineFlags` followed by the disk-existence check and
`os.remove` — so a failing undefine raises before any disk I/O happens. -/
def delete_vm (w : World) (name : String) : Outcome Unit :=
  match lookupDom w name with
  | none => ⟨.error .notFound, w, []⟩
  | some d =>
    let offPair :=
      if d.state = .shutOff then (w, ([] : List Ev))
      else if d.destroyFails then (w, [Ev.destroyReq name])
      else (setDomState w name .shutOff, [Ev.destroyReq name])
    let w1 := offPair.1
    let evs := offPair.2 ++ [Ev.undefineReq name]
    if d.undefineFails then ⟨.error .libvirtError, w1, evs⟩
    else
      let w2 := removeDom w1 name
      if hasDisk w2 name then ⟨.ok (), removeDisk w2 name, evs ++ [.diskRemove name]⟩
      else ⟨.ok (), w2, evs⟩

/-- The missing-domain branch of
`PoolManager._ensure_pool_vm_exists_and_stopped`: remove an orphaned disk if
present, create a fresh VM with the default sizing and owner `pool`, then
stop it. -/
def poolRecreateSlot (w : World) (name : String) : Outcome Unit :=
  let cleaned :=
    if hasDisk w name then (removeDisk w name, [Ev.diskRemove name])
    else (w, ([] : List Ev))
  match create_vm cleaned.1 name (some defaultMemoryMb) (some defaultVcpu) (some "pool") with
  | ⟨.error e, w2, evs2⟩ => ⟨.error e, w2, cleaned.2 ++ evs2⟩
  | ⟨.ok _, w2, evs2⟩ =>
    match stop_vm w2 name with
    | ⟨r, w3, evs3⟩ => ⟨r, w3, cleaned.2 ++ evs2 ++ evs3⟩

/-- `PoolManager._ensure_pool_vm_exists_and_stopped`.  The whole
lookup/inspect/shutdown logic sits in one `try` whose
`except libvirt.libvirtError` is the missing-domain branch, so an `info`
failure or a failing fallback `destroy()` also drops into recreation. -/
def ensurePoolVmExistsAndStopped (w : World) (name : String) : Outcome Unit :=
  match lookupDom w name with
  | none => poolRecreateSlot w name
  | some d =>
    if d.infoFails then poolRecreateSlot w name
    else if d.state = .running then
      if d.shutdownFails = false then
        ⟨.ok (),
         setDomState w name (if guestShutoffBy d 0 then .shutOff else .shuttingDown),
         [.shutdownReq name]⟩
      else if d.destroyFails = false then
        ⟨.ok (), setDomState w name .shutOff, [.shutdownReq name, .destroyReq name]⟩
      else
        match poolRecreateSlot w name with
        | ⟨r, w1, evs⟩ => ⟨r, w1, Ev.shutdownReq name :: Ev.destroyReq name :: evs⟩
    else ⟨.ok (), w, []⟩

/-- `PoolManager.get_available_vm`, scanning `self.pool` in order.  A slot
whose domain is missing is recreated synchronously and returned; a slot
whose domain exists is returned immediately, after merely issuing a
shutdown request (falling back to `destroy()` if that request raises) when
it is not shut off; any per-slot error moves on to the next slot. -/
def getAvailableVm : World → List String → Option String × World × List Ev
  | w, [] => (none, w, [])
  | w, name :: rest =>
    match lookupDom w name with
    | none =>
      match ensurePoolVmExistsAndStopped w name with
      | ⟨.ok _, w1, evs⟩ => (some name, w1, evs)
      | ⟨.error _, w1, evs⟩ =>
        match getAvailableVm w1 rest with
        | (r, w2, evs2) => (r, w2, evs ++ evs2)
    | some d =>
      if d.infoFails then getAvailableVm w rest
      else if d.state = .shutOff then (some name, w, [])
      else if d.shutdownFails = false then
        (some name,
         setDomState w name (if guestShutoffBy d 0 then .shutOff else .shuttingDown),
         [.shutdownReq name])
      else if d.destroyFails = false then
        (some name, setDomState w name .shutOff, [.shutdownReq name, .destroyReq name])
      else
        match getAvailableVm w rest with
        | (r, w2, evs2) => (r, w2, Ev.shutdownReq name :: Ev.destroyReq name :: evs2)

/-- Characterization of the per-slot error paths of `get_available_vm` (the
`continue` branches): a missing domain whose synchronous recreation raises,
a `dom.info()` failure on an existing domain, or a shutdown request that
raises with the fallback `destroy()` raising too. -/
def slotAttemptFails (w : World) (name : String) : Bool :=
  match lookupDom w name with
  | none => !(ensurePoolVmExistsAndStopped w name).ok?
  | some d =>
    d.infoFails
      || (!(decide (d.state = PowerState.shutOff)) && d.shutdownFails && d.destroyFails)

/-- The world carried to the next slot after a failed attempt: a failed
recreation's side effects persist, while the existing-domain error paths
leave the world unchanged. -/
def slotFailWorld (w : World) (name : String) : World :=
  match lookupDom w name with
  | none => (ensurePoolVmExistsAndStopped w name).world
  | some _ => w

/-- Every slot's attempt fails, scanned in order, each failed attempt's
world changes carried forward — the condition under which `get_available_vm`
falls off the end of the loop. -/
def poolAllFail : World → List String → Bool
  | _, [] => true
  | w, n :: rest => slotAttemptFails w n && poolAllFail (slotFailWorld w n) rest

/-! ## Terminal tunnel and session recording (`src/main.py`) -/

inductive Dir
  | input
  | output
deriving DecidableEq, Repr

/-- Direction marker written into the recording: `"i"` in
`_proxy_websocket_to_ssh`, `"o"` in `_proxy_ssh_to_websocket`. -/
def Dir.tag : Dir → String
  | .input => "i"
  | .output => "o"

/-- One chunk passing through a pump, with the wall-clock instant
(`time.time()`) at which its pump iteration runs. -/
structure Chunk where
  ts : Nat
  dir : Dir
  payload : String
deriving DecidableEq, Repr

/-- One line of a `.cast` recording file: the header object written by
`vm_terminal` or one `[timestamp, direction, payload]` event array. -/
inductive RecLine
  | headerLine (version width height : Nat) (timestamp : Nat)
      (term shell : String) (vmName : String) (owner : Option String)
  | eventLn (ts : Nat) (tag : String) (payload : String)
deriving DecidableEq, Repr

def lineTs : RecLine → Nat
  | .headerLine _ _ _ t _ _ _ _ => t
  | .eventLn t _ _ => t

/-- An action of a forwarding pump: appending the event line to the
recording, or forwarding the chunk to its destination. -/
inductive PumpAct
  | recordEv (c : Chunk)
  | forwardEv (c : Chunk)
deriving DecidableEq, Repr

/-- The interleaved run of the two pumps, at chunk granularity (each loop
body captures the timestamp, writes the log line, then forwards, with no
suspension point in between): every chunk is recorded, then forwarded. -/
def pumpTrace : List Chunk → List PumpAct
  | [] => []
  | c :: cs => .recordEv c :: .forwardEv c :: pumpTrace cs

def eventLine (c : Chunk) : RecLine :=
  .eventLn c.ts c.dir.tag c.payload

/-- The lines the trace appends to the recording file, in order. -/
def traceRecording : List PumpAct → List RecLine
  | [] => []
  | .recordEv c :: r => eventLine c :: traceRecording r
  | .forwardEv _ :: r => traceRecording r

/-- The chunks the trace forwards, in order. -/
def traceForwarded : List PumpAct → List (Dir × String)
  | [] => []
  | .recordEv _ :: r => traceForwarded r
  | .forwardEv c :: r => (c.dir, c.payload) :: traceForwarded r

def countRec (t : List PumpAct) (d : Dir) : Nat :=
  (t.filter fun a => match a with
    | .recordEv c => decide (c.dir = d)
    | .forwardEv _ => false).length

def countFwd (t : List PumpAct) (d : Dir) : Nat :=
  (t.filter fun a => match a with
    | .recordEv _ => false
    | .forwardEv c => decide (c.dir = d)).length

/-- Static SSH settings from `config/settings.py`
(`VM_SSH_HOST_TEMPLATE`, `VM_SSH_PORT`, `VM_SSH_USERNAME`,
`VM_SSH_PRIVATE_KEY`). -/
structure SshConfig where
  hostTemplate : String
  port : Nat
  username : String
  keyPath : String
deriving DecidableEq, Repr

structure SshTarget where
  host : String
  port : Nat
  username : String
  keyPath : String
deriving DecidableEq, Repr

/-- `VMController.get_vm_ssh_target`: a pure computation from the static
configuration and the name; no domain lookup, no failure path. -/
def get_vm_ssh_target (cfg : SshConfig) (name : String) : SshTarget :=
  { host := cfg.hostTemplate.replace "\x7bname\x7d" name
    port := cfg.port
    username := cfg.username
    keyPath := cfg.keyPath }

/-- Environment of one terminal session: whether `asyncssh.connect` fails,
and the arrival-ordered chunks pumped after a successful connect. -/
structure TermEnv where
  connectFails : Bool
  schedule : List Chunk
deriving DecidableEq, Repr

inductive SessionOutcome
  | streamed
  | sshError
deriving DecidableEq, Repr

/-- The header object `vm_terminal` writes as the first line. -/
def sessionHeader (startTime : Nat) (name : String) (owner : Option String) : RecLine :=
  .headerLine 2 80 24 startTime "xterm-256color" "/bin/bash" name owner

/-- The `vm_terminal` WebSocket handler: resolves the SSH target and writes
the header before attempting the upstream connection; it never consults the
hypervisor world `_w`, so a session toward a nonexistent VM proceeds to the
connect step and fails only there. -/
def vm_terminal (_w : World) (cfg : SshConfig) (env : TermEnv) (name : String)
    (owner : Option String) (startTime : Nat) : List RecLine × SessionOutcome :=
  let _target := get_vm_ssh_target cfg name
  let fileStart := [sessionHeader startTime name owner]
  if env.connectFails then (fileStart, .sshError)
  else (fileStart ++ traceRecording (pumpTrace env.schedule), .streamed)

/-! ## Ansible credential store and provisioning (`src/core/ansible_auth.py`,
`VMController.configure_vm_with_ansible`) -/

/-- `AnsibleAuthManager`'s process-wide state: at most one password.  Its
three classmethods each take the lock and perform one atomic read or
write, modelled as pure state transitions. -/
abbrev AnsibleStore := Option String

def set_password (_s : AnsibleStore) (p : String) : AnsibleStore :=
  some p

def clear_password (_s : AnsibleStore) : AnsibleStore :=
  none

def get_password (s : AnsibleStore) : AnsibleStore :=
  s

def ansibleHostsFile : String := "ansible/hosts.ini"

def ansiblePlaybook : String := "ansible/playbooks/configure_vm.yml"

/-- The `cmd` list built by `configure_vm_with_ansible` — the part that is
logged. -/
def ansibleBaseCmd (vmName : String) : List String :=
  ["ansible-playbook", "-i", ansibleHostsFile, ansiblePlaybook,
   "-e", "target_host=" ++ vmName]

/-- The `extra` become-password arguments, appended to the executed command
only, when a password is stored. -/
def ansibleExtraArgs (stored : Option String) : List String :=
  match stored with
  | some p => ["-e", "ansible_become_pass=" ++ p]
  | none => []

def ansibleFullCmd (vmName : String) (stored : Option String) : List String :=
  ansibleBaseCmd vmName ++ ansibleExtraArgs stored

/-- Completed `subprocess.run` result; `none` at the call site models
`FileNotFoundError` (no `ansible-playbook` binary). -/
structure RunResult where
  returncode : Int
  stdout : String
  stderr : String
deriving DecidableEq, Repr

def combinedOutput (r : RunResult) : String :=
  let parts := [r.stderr.trim, r.stdout.trim].filter fun s => !(s == "")
  if parts.isEmpty then "unknown error" else String.intercalate "\n" parts

/-- What one `configure_vm_with_ansible` call observably does: its result,
every `log_event` line it emits, and the argument vector handed to
`subprocess.run`. -/
structure AnsibleRun where
  result : Except Err Unit
  logs : List String
  executed : List String
deriving DecidableEq, Repr

/-- `VMController.configure_vm_with_ansible`: reads the stored password via
`AnsibleAuthManager.get_password`, executes `full_cmd` (= `cmd + extra`),
but logs only `' '.join(cmd)`. -/
def configure_vm_with_ansible (stored : AnsibleStore) (runOutcome : Option RunResult)
    (vmName : String) : AnsibleRun :=
  let cmd := ansibleBaseCmd vmName
  let fullCmd := ansibleFullCmd vmName (get_password stored)
  let runLog := "[ansible] Running playbook for VM " ++ vmName ++ ": "
      ++ String.intercalate " " cmd
  match runOutcome with
  | none =>
    { result := .error .provisioningFailed
      logs := [runLog, "[ansible] ansible-playbook not found"]
      executed := fullCmd }
  | some r =>
    if r.returncode ≠ 0 then
      { result := .error .provisioningFailed
        logs := [runLog, "[ansible] FAILED for VM " ++ vmName ++ ": " ++ combinedOutput r]
        executed := fullCmd }
    else
      { result := .ok ()
        logs := [runLog, "[ansible] VM " ++ vmName ++ " configured successfully"]
        executed := fullCmd }

/-! ## Concrete worlds used by witnesses and counterexamples -/

/-- A domain/environment in which every libvirt call succeeds and the guest
answers a graceful shutdown immediately. -/
def benignDom : DomBehavior :=
  { state := .shutOff, infoFails := false, shutdownFails := false,
    destroyFails := false, undefineFails := false, createFails := false,
    resumeFails := false, respondsAfter := some 0, pollInfoFailsAt := none }

def baseWorld : World :=
  { doms := [], disks := [], baseImage := true, copyFails := false,
    defineFails := false, freshDom := benignDom, virshMissing := false,
    snapshotCmdFails := false, nextUuid := 0 }

/-- Empty hypervisor but `conn.defineXML` fails. -/
def worldDefineFail : World :=
  { baseWorld with defineFails := true }

/-- One domain `lab1`, shut off, whose `undefineFlags` call fails; its disk
image exists. -/
def worldUndefineFail : World :=
  { baseWorld with
    doms := [("lab1", { benignDom with undefineFails := true })]
    disks := ["lab1"] }

/-- One running pool slot whose guest never answers the graceful-shutdown
request (but the request itself succeeds). -/
def worldPoolBusy : World :=
  { baseWorld with
    doms := [("pool-vm-1", { benignDom with state := .running, respondsAfter := none })]
    disks := ["pool-vm-1"] }

/-- Empty hypervisor with a stale orphan disk image for `pool-vm-1` (no
domain defined for it). -/
def worldOrphan : World :=
  { baseWorld with disks := ["pool-vm-1"] }

/-- A running domain `lab1` that shuts down gracefully at the third poll. -/
def worldRunning : World :=
  { baseWorld with
    doms := [("lab1", { benignDom with state := .running, respondsAfter := some 3 })]
    disks := ["lab1"] }

/-- A running domain `lab1` whose `dom.info()` starts failing at poll
iteration 2 (the hypervisor connection drops mid-stop). -/
def worldPollFail : World :=
  { baseWorld with
    doms := [("lab1",
      { benignDom with
        state := .running
        respondsAfter := none
        pollInfoFailsAt := some 2 })]
    disks := ["lab1"] }

/-- A healthy running domain `lab1` with its disk. -/
def worldLab1 : World :=
  { baseWorld with
    doms := [("lab1", { benignDom with state := .running })]
    disks := ["lab1"] }

/-- A running domain `lab1` that ignores graceful shutdown entirely (the
request succeeds but the guest never powers off). -/
def worldStubborn : World :=
  { baseWorld with
    doms := [("lab1", { benignDom with state := .running, respondsAfter := none })]
    disks := ["lab1"] }

/-- The shipped SSH settings (`VM_SSH_HOST_TEMPLATE="{name}"`, port 22,
username `student`). -/
def shippedSshConfig : SshConfig :=
  { hostTemplate := "\x7bname\x7d", port := 22, username := "student",
    keyPath := "~/.ssh/id_rsa" }

/-- A two-chunk terminal session: one keystroke in, one reply out. -/
def sampleTermEnv : TermEnv :=
  { connectFails := false
    schedule := [⟨1, .input, "ls\n"⟩, ⟨2, .output, "file"⟩] }

/-! ## Helper lemmas -/

theorem domsLookup_setState (l : List (String × DomBehavior)) (n : String) (s : PowerState) :
    domsLookup (domsSetState l n s) n
      = (domsLookup l n).map fun d => { d with state := s } := by
  induction l with
  | nil => rfl
  | cons p t ih =>
    obtain ⟨k, d⟩ := p
    by_cases h : k = n
    · simp [domsSetState, domsLookup, h]
    · simp [domsSetState, domsLookup, h, ih]

theorem domsLookup_remove (l : List (String × DomBehavior)) (n : String) :
    domsLookup (domsRemove l n) n = none := by
  induction l with
  | nil => rfl
  | cons p t ih =>
    obtain ⟨k, d⟩ := p
    by_cases h : k = n
    · simp [domsRemove, h, ih]
    · simp [domsRemove, domsLookup, h, ih]

theorem diskMem_remove (l : List String) (n : String) :
    diskMem (disksRemove l n) n = false := by
  induction l with
  | nil => rfl
  | cons k t ih =>
    by_cases h : k = n
    · simp [disksRemove, h, ih]
    · simp [disksRemove, diskMem, h, ih]

theorem disksRemove_of_not_mem (l : List String) (n : String)
    (h : diskMem l n = false) : disksRemove l n = l := by
  induction l with
  | nil => rfl
  | cons k t ih =>
    by_cases hk : k = n
    · simp [diskMem, hk] at h
    · simp only [diskMem, if_neg hk] at h
      simp [disksRemove, hk, ih h]

theorem removeDisk_of_not_hasDisk (w : World) (n : String)
    (h : hasDisk w n = false) : removeDisk w n = w := by
  simp [removeDisk, disksRemove_of_not_mem w.disks n h]

theorem lookupDom_setDomState_self (w : World) (n : String) (s : PowerState) :
    lookupDom (setDomState w n s) n
      = (lookupDom w n).map fun d => { d with state := s } := by
  simp [lookupDom, setDomState, domsLookup_setState]

theorem hasDisk_setDomState (w : World) (n m : String) (s : PowerState) :
    hasDisk (setDomState w n s) m = hasDisk w m := rfl

/-- A poll loop that can never observe shut off and whose inspections never
fail runs to its timeout. -/
theorem pollForShutoff_timedOut (d : DomBehavior) (sok : Bool)
    (hp : d.pollInfoFailsAt = none)
    (hg : ∀ i, (sok && guestShutoffBy d i) = false) :
    ∀ i fuel, pollForShutoff d sok i fuel = .timedOut := by
  intro i fuel
  induction fuel generalizing i with
  | zero => rfl
  | succ f ih => simp [pollForShutoff, hp, hg, ih]

/-- The poll loop reports an inspection failure only when one is scripted. -/
theorem pollForShutoff_inspectFail (d : DomBehavior) (sok : Bool) :
    ∀ i fuel, pollForShutoff d sok i fuel = .inspectFail →
      d.pollInfoFailsAt ≠ none := by
  intro i fuel
  induction fuel generalizing i with
  | zero => intro h; cases h
  | succ f ih =>
    intro h
    by_cases hp : d.pollInfoFailsAt = some i
    · simp [hp]
    · by_cases hg : (sok && guestShutoffBy d i) = true
      · simp [pollForShutoff, hp, hg] at h
      · simp only [pollForShutoff, if_neg hp] at h
        rw [if_neg (by simp [hg])] at h
        exact ih (i + 1) h

theorem traceRecording_pumpTrace (cs : List Chunk) :
    traceRecording (pumpTrace cs) = cs.map eventLine := by
  induction cs with
  | nil => rfl
  | cons c t ih => simp [pumpTrace, traceRecording, ih]

theorem countRec_pumpTrace (cs : List Chunk) (d : Dir) :
    countRec (pumpTrace cs) d
      = (cs.filter fun c => decide (c.dir = d)).length := by
  induction cs with
  | nil => rfl
  | cons c t ih =>
    by_cases h : c.dir = d
    · simp [pumpTrace, countRec, List.filter, h] at ih ⊢
      omega
    · simp [pumpTrace, countRec, List.filter, h] at ih ⊢
      omega

theorem countFwd_pumpTrace (cs : List Chunk) (d : Dir) :
    countFwd (pumpTrace cs) d
      = (cs.filter fun c => decide (c.dir = d)).length := by
  induction cs with
  | nil => rfl
  | cons c t ih =>
    by_cases h : c.dir = d
    · simp [pumpTrace, countFwd, List.filter, h] at ih ⊢
      omega
    · simp [pumpTrace, countFwd, List.filter, h] at ih ⊢
      omega

/-- In every prefix of the pump trace, no chunk has been forwarded in a
direction more often than it has been recorded in that direction: recording
happens before forwarding. -/
theorem countFwd_take_le_countRec (cs : List Chunk) :
    ∀ (k : Nat) (d : Dir),
      countFwd ((pumpTrace cs).take k) d ≤ countRec ((pumpTrace cs).take k) d := by
  induction cs with
  | nil => intro k d; simp [pumpTrace, countFwd, countRec]
  | cons c t ih =>
    intro k d
    match k with
    | 0 => simp [countFwd, countRec]
    | 1 =>
      simp only [pumpTrace, List.take]
      by_cases h : c.dir = d <;> simp [countFwd, countRec, List.filter, h]
    | Nat.succ (Nat.succ k') =>
      have := ih k' d
      simp only [pumpTrace, List.take]
      by_cases h : c.dir = d <;>
        simp [countFwd, countRec, List.filter, h] at this ⊢ <;> omega

/-- A successful `create_vm` reaches the last branch: the final world is the
input world plus the cloned disk, the bumped uuid counter, and the freshly
defined domain powered on. -/
theorem create_vm_ok_world (w : World) (name : String) (m v : Option Nat)
    (o : Option String) (h : (create_vm w name m v o).ok? = true) :
    (create_vm w name m v o).world
      = setDomState
          (addDom (bumpUuid (addDisk w name)) name { w.freshDom with state := .shutOff })
          name .running := by
  cases hl : domsLookup w.doms name with
  | some dd => simp [create_vm, lookupDom, hl, Outcome.ok?] at h
  | none =>
    cases hb : w.baseImage with
    | false => simp [create_vm, lookupDom, hl, clone_base_image, hb, Outcome.ok?] at h
    | true =>
      cases hd : diskMem w.disks name with
      | true =>
        simp [create_vm, lookupDom, hl, clone_base_image, hasDisk, hb, hd,
          Outcome.ok?] at h
      | false =>
        cases hc : w.copyFails with
        | true =>
          simp [create_vm, lookupDom, hl, clone_base_image, hasDisk, hb, hd, hc,
            Outcome.ok?] at h
        | false =>
          cases hdef : w.defineFails with
          | true =>
            simp [create_vm, lookupDom, hl, clone_base_image, hasDisk, hb, hd, hc,
              addDisk, bumpUuid, hdef, Outcome.ok?] at h
          | false =>
            cases hcr : w.freshDom.createFails with
            | true =>
              simp [create_vm, lookupDom, hl, clone_base_image, hasDisk, hb, hd, hc,
                addDisk, bumpUuid, addDom, hdef, hcr, Outcome.ok?] at h
            | false =>
              simp [create_vm, lookupDom, hl, clone_base_image, hasDisk, hb, hd, hc,
                addDisk, bumpUuid, addDom, hdef, hcr, setDomState]

/-- A successful `create_vm` leaves the new domain defined and running. -/
theorem create_vm_ok_state (w : World) (name : String) (m v : Option Nat)
    (o : Option String) (h : (create_vm w name m v o).ok? = true) :
    domState (create_vm w name m v o).world name = some .running := by
  rw [create_vm_ok_world w name m v o h]
  simp [domState, lookupDom, setDomState, addDom, bumpUuid, addDisk,
    domsSetState, domsLookup]

/-- A successful `create_vm` leaves the disk image in place. -/
theorem create_vm_ok_disk (w : World) (name : String) (m v : Option Nat)
    (o : Option String) (h : (create_vm w name m v o).ok? = true) :
    hasDisk (create_vm w name m v o).world name = true := by
  rw [create_vm_ok_world w name m v o h]
  simp [hasDisk, setDomState, addDom, bumpUuid, addDisk, diskMem]

/-- A successful `delete_vm` removes both the domain and the disk image. -/
theorem delete_vm_ok_clean (w : World) (name : String)
    (h : (delete_vm w name).ok? = true) :
    hasDisk (delete_vm w name).world name = false
    ∧ lookupDom (delete_vm w name).world name = none := by
  cases hl : domsLookup w.doms name with
  | none => simp [delete_vm, lookupDom, hl, Outcome.ok?] at h
  | some d =>
    cases hu : d.undefineFails with
    | true =>
      by_cases hs : d.state = PowerState.shutOff <;>
        cases hdf : d.destroyFails <;>
          simp [delete_vm, lookupDom, hl, hu, hs, hdf, Outcome.ok?] at h
    | false =>
      by_cases hs : d.state = PowerState.shutOff <;>
        cases hdf : d.destroyFails <;>
          cases hdk : diskMem w.disks name <;>
            simp [delete_vm, lookupDom, hl, hu, hs, hdf, hdk, hasDisk, removeDom,
              removeDisk, setDomState, diskMem_remove, domsLookup_remove]

/-- C1 (amended).  The disk/domain coupling invariant holds for operations
that complete successfully — a successful create establishes the disk and
the running domain together, a successful delete removes both — but when
create fails with a hypervisor error at the domain-definition or power-on
step, the cloned disk image REMAINS on disk as an orphan (after a define
failure with no domain at all, after a power-on failure next to a defined
domain). -/
theorem create_delete_disk_invariant (w : World) (name : String)
    (m v : Option Nat) (o : Option String) :
    ((create_vm w name m v o).ok? = true →
        hasDisk (create_vm w name m v o).world name = true
        ∧ domState (create_vm w name m v o).world name = some .running)
    ∧ ((delete_vm w name).ok? = true →
        hasDisk (delete_vm w name).world name = false
        ∧ lookupDom (delete_vm w name).world name = none)
    ∧ (lookupDom w name = none → hasDisk w name = false → w.baseImage = true →
       w.copyFails = false → w.defineFails = true →
        (create_vm w name m v o).result = .error .libvirtError
        ∧ hasDisk (create_vm w name m v o).world name = true
        ∧ lookupDom (create_vm w name m v o).world name = none)
    ∧ (lookupDom w name = none → hasDisk w name = false → w.baseImage = true →
       w.copyFails = false → w.defineFails = false → w.freshDom.createFails = true →
        (create_vm w name m v o).result = .error .libvirtError
        ∧ hasDisk (create_vm w name m v o).world name = true
        ∧ (lookupDom (create_vm w name m v o).world name).isSome = true) := by
  refine ⟨fun h => ⟨create_vm_ok_disk w name m v o h, create_vm_ok_state w name m v o h⟩,
    fun h => delete_vm_ok_clean w name h, ?_, ?_⟩
  · intro hl hdk hb hc hdef
    simp only [lookupDom] at hl ⊢
    simp only [hasDisk] at hdk
    refine ⟨?_, ?_, ?_⟩ <;>
      simp [create_vm, lookupDom, hl, clone_base_image, hasDisk, hdk, hb, hc,
        addDisk, bumpUuid, hdef, diskMem]
  · intro hl hdk hb hc hdef hcr
    simp only [lookupDom] at hl ⊢
    simp only [hasDisk] at hdk
    refine ⟨?_, ?_, ?_⟩ <;>
      simp [create_vm, lookupDom, hl, clone_base_image, hasDisk, hdk, hb, hc,
        addDisk, bumpUuid, addDom, hdef, hcr, diskMem, domsLookup]

/-- C1 counterexample: `create` on an empty hypervisor whose `defineXML`
fails returns the hypervisor error, yet the cloned disk image for `lab1`
remains on disk — refuting "the cloned disk image does not remain on
disk". -/
theorem create_orphan_disk_cex :
    (create_vm worldDefineFail "lab1" (some 1024) (some 2) (some "alice")).result
        = .error .libvirtError
    ∧ hasDisk (create_vm worldDefineFail "lab1" (some 1024) (some 2) (some "alice")).world
        "lab1" = true
    ∧ lookupDom (create_vm worldDefineFail "lab1" (some 1024) (some 2) (some "alice")).world
        "lab1" = none := by
  decide

/-- C1 witness: the success half of the invariant at a concrete create. -/
theorem create_delete_disk_invariant_witness :
    hasDisk (create_vm baseWorld "lab1" (some 1024) (some 2) (some "alice")).world
        "lab1" = true
    ∧ domState (create_vm baseWorld "lab1" (some 1024) (some 2) (some "alice")).world
        "lab1" = some .running :=
  (create_delete_disk_invariant baseWorld "lab1" (some 1024) (some 2)
    (some "alice")).1 (by decide)

/-- C6: a second `create` with the name of an existing domain fails with
`AlreadyExists` before any disk or definition operation: the world is
untouched and no side-effecting call is issued. -/
theorem create_vm_duplicate_conflict (w : World) (name : String)
    (m v : Option Nat) (o : Option String) (m2 v2 : Option Nat) (o2 : Option String)
    (h : (create_vm w name m v o).ok? = true) :
    create_vm (create_vm w name m v o).world name m2 v2 o2
      = ⟨.error .alreadyExists, (create_vm w name m v o).world, []⟩ := by
  have hst := create_vm_ok_state w name m v o h
  generalize hW : (create_vm w name m v o).world = W at hst ⊢
  cases hl2 : lookupDom W name with
  | none => simp [domState, hl2] at hst
  | some d => simp [create_vm, hl2]

/-- C6 witness: duplicate create of `lab1` on top of a successful one. -/
theorem create_vm_duplicate_conflict_witness :
    create_vm (create_vm baseWorld "lab1" (some 1024) (some 2) (some "alice")).world
        "lab1" (some 2048) (some 4) (some "bob")
      = ⟨.error .alreadyExists,
         (create_vm baseWorld "lab1" (some 1024) (some 2) (some "alice")).world, []⟩ :=
  create_vm_duplicate_conflict baseWorld "lab1" (some 1024) (some 2) (some "alice")
    (some 2048) (some 4) (some "bob") (by decide)

/-- C7: `start_vm` fails with `NotFound` when the domain is missing, with
`Conflict` when the VM is running, resumes a paused VM, and issues a
power-on in every other state. -/
theorem start_vm_behavior (w : World) (name : String) :
    (lookupDom w name = none → start_vm w name = ⟨.error .notFound, w, []⟩)
    ∧ (∀ d, lookupDom w name = some d → d.infoFails = false →
        ((d.state = .running → start_vm w name = ⟨.error .conflict, w, []⟩)
         ∧ (d.state = .paused → d.resumeFails = false →
              start_vm w name = ⟨.ok (), setDomState w name .running, [.resumeReq name]⟩)
         ∧ (d.state ≠ .running → d.state ≠ .paused →
              (start_vm w name).events = [.powerOnReq name]
              ∧ (d.createFails = false →
                  start_vm w name
                    = ⟨.ok (), setDomState w name .running, [.powerOnReq name]⟩)))) := by
  constructor
  · intro hl
    simp [start_vm, hl]
  · intro d hl hi
    refine ⟨?_, ?_, ?_⟩
    · intro hrun
      simp [start_vm, hl, hi, hrun]
    · intro hpaused hres
      simp [start_vm, hl, hi, hpaused, hres]
    · intro hnr hnp
      constructor
      · cases hcf : d.createFails <;> simp [start_vm, hl, hi, hnr, hnp, hcf]
      · intro hcf
        simp [start_vm, hl, hi, hnr, hnp, hcf]

/-- C2 (amended).  `delete` fails with `NotFound` when the domain is
missing, with no disk I/O; when the domain exists it force-powers off an
active VM with errors swallowed and always proceeds to the undefine; when
the undefine succeeds it removes the domain and the disk (the disk's
absence is not an error); but when the undefine fails it raises the
hypervisor error WITHOUT attempting the disk removal, which sits after
`undefineFlags` in the same `try` block. -/
theorem delete_vm_behavior (w : World) (name : String) :
    (lookupDom w name = none → delete_vm w name = ⟨.error .notFound, w, []⟩)
    ∧ (∀ d, lookupDom w name = some d →
        (Ev.undefineReq name ∈ (delete_vm w name).events)
        ∧ (d.state ≠ .shutOff → Ev.destroyReq name ∈ (delete_vm w name).events)
        ∧ (d.undefineFails = true →
            (delete_vm w name).result = .error .libvirtError
            ∧ Ev.diskRemove name ∉ (delete_vm w name).events
            ∧ hasDisk (delete_vm w name).world name = hasDisk w name)
        ∧ (d.undefineFails = false →
            (delete_vm w name).result = .ok ()
            ∧ lookupDom (delete_vm w name).world name = none
            ∧ hasDisk (delete_vm w name).world name = false)) := by
  constructor
  · intro hl
    simp [delete_vm, hl]
  · intro d hl
    have hl0 : domsLookup w.doms name = some d := hl
    refine ⟨?_, ?_, ?_, ?_⟩
    · by_cases hs : d.state = PowerState.shutOff <;>
        cases hdf : d.destroyFails <;>
          cases hu : d.undefineFails <;>
            cases hdk : diskMem w.disks name <;>
              simp [delete_vm, hl, hl0, hs, hdf, hu, hdk, hasDisk, removeDom,
                removeDisk, setDomState]
    · intro hs
      cases hdf : d.destroyFails <;>
        cases hu : d.undefineFails <;>
          cases hdk : diskMem w.disks name <;>
            simp [delete_vm, hl, hl0, hs, hdf, hu, hdk, hasDisk, removeDom,
              removeDisk, setDomState]
    · intro hu
      by_cases hs : d.state = PowerState.shutOff <;>
        cases hdf : d.destroyFails <;>
          simp [delete_vm, hl, hl0, hs, hdf, hu, hasDisk, setDomState]
    · intro hu
      by_cases hs : d.state = PowerState.shutOff <;>
        cases hdf : d.destroyFails <;>
          cases hdk : diskMem w.disks name <;>
            simp [delete_vm, hl, hl0, hs, hdf, hu, hdk, hasDisk, removeDom,
              removeDisk, setDomState, diskMem_remove, domsLookup_remove, lookupDom]

/-- C2 counterexample: deleting `lab1` when `undefineFlags` fails raises the
hypervisor error and never attempts the disk removal — the disk image stays
behind — refuting "the disk removal is still attempted". -/
theorem delete_undefine_skips_disk_cex :
    (delete_vm worldUndefineFail "lab1").result = .error .libvirtError
    ∧ hasDisk (delete_vm worldUndefineFail "lab1").world "lab1" = true
    ∧ Ev.diskRemove "lab1" ∉ (delete_vm worldUndefineFail "lab1").events := by
  decide

/-- C2 witness: successful delete of a healthy running `lab1`. -/
theorem delete_vm_behavior_witness :
    (delete_vm worldLab1 "lab1").result = .ok ()
    ∧ lookupDom (delete_vm worldLab1 "lab1").world "lab1" = none
    ∧ hasDisk (delete_vm worldLab1 "lab1").world "lab1" = false :=
  (((delete_vm_behavior worldLab1 "lab1").2 { benignDom with state := .running }
      (by decide)).2.2.2) (by decide)

/-- `stop_vm` on a domain already reported shut off is a successful no-op:
no error, no snapshot attempt, no shutdown request, no destroy. -/
theorem stop_vm_noop (w : World) (name : String) (d : DomBehavior)
    (hl : lookupDom w name = some d) (hi : d.infoFails = false)
    (hs : d.state = .shutOff) :
    stop_vm w name = ⟨.ok (), w, []⟩ := by
  simp [stop_vm, hl, hi, hs]

/-- C4: `stop` is idempotent — after a successful `stop`, a second `stop`
succeeds as a no-op that leaves the world unchanged and issues no calls at
all (no snapshot, no shutdown request, no destroy); and on a VM already
shut off, `stop` is that no-op directly. -/
theorem stop_vm_idempotent (w : World) (name : String)
    (h : (stop_vm w name).result = .ok ()) :
    stop_vm (stop_vm w name).world name = ⟨.ok (), (stop_vm w name).world, []⟩
    ∧ (∀ d, lookupDom w name = some d → d.infoFails = false → d.state = .shutOff →
        stop_vm w name = ⟨.ok (), w, []⟩) := by
  constructor
  · cases hl : domsLookup w.doms name with
    | none => simp [stop_vm, lookupDom, hl] at h
    | some d =>
      have hl' : lookupDom w name = some d := by simp [lookupDom, hl]
      cases hi : d.infoFails with
      | true => simp [stop_vm, hl', hi] at h
      | false =>
        by_cases hs : d.state = PowerState.shutOff
        · have hw : (stop_vm w name).world = w := by simp [stop_vm, hl', hi, hs]
          rw [hw]
          exact stop_vm_noop w name d hl' hi hs
        · cases hp : pollForShutoff d (!d.shutdownFails) 0 stopTimeoutSec with
          | graceful =>
            have hw : (stop_vm w name).world = setDomState w name .shutOff := by
              simp [stop_vm, hl', hi, hs, hp]
            rw [hw]
            exact stop_vm_noop _ name { d with state := .shutOff }
              (by rw [lookupDom_setDomState_self, hl']; rfl) hi rfl
          | inspectFail => simp [stop_vm, hl', hi, hs, hp] at h
          | timedOut =>
            cases hdf : d.destroyFails with
            | true => simp [stop_vm, hl', hi, hs, hp, hdf] at h
            | false =>
              have hw : (stop_vm w name).world = setDomState w name .shutOff := by
                simp [stop_vm, hl', hi, hs, hp, hdf]
              rw [hw]
              exact stop_vm_noop _ name { d with state := .shutOff }
                (by rw [lookupDom_setDomState_self, hl']; rfl) hi rfl
  · intro d hl hi hs
    exact stop_vm_noop w name d hl hi hs

/-- C4 witness: stopping the running `lab1` succeeds, and stopping it again
is the identity no-op. -/
theorem stop_vm_idempotent_witness :
    stop_vm (stop_vm worldRunning "lab1").world "lab1"
      = ⟨.ok (), (stop_vm worldRunning "lab1").world, []⟩ :=
  (stop_vm_idempotent worldRunning "lab1" (by decide)).1

/-- C5 (amended).  For `stop` on a VM that is not shut off: the snapshot is
attempted and its failure never changes the outcome; a failing
graceful-shutdown request falls through to polling and forced stop; a guest
that ignores the shutdown within the timeout ends in a forced destroy with
final state shut off; and a fatal `HypervisorError` surfaces exactly when
the forced power-off fails OR a state inspection during polling fails (the
latter path, `raise` at the top of the poll loop, is the correction to the
claim). -/
theorem stop_vm_escalation (w : World) (name : String) (d : DomBehavior)
    (hl : lookupDom w name = some d) (hi : d.infoFails = false)
    (hs : d.state ≠ .shutOff) :
    (∀ b1 b2,
        (stop_vm { w with virshMissing := b1, snapshotCmdFails := b2 } name).result
          = (stop_vm w name).result
        ∧ (stop_vm { w with virshMissing := b1, snapshotCmdFails := b2 } name).events
          = (stop_vm w name).events)
    ∧ Ev.snapshotAttempt name ∈ (stop_vm w name).events
    ∧ (d.shutdownFails = true → d.pollInfoFailsAt = none → d.destroyFails = false →
        stop_vm w name = ⟨.ok (), setDomState w name .shutOff,
          [.snapshotAttempt name, .shutdownReq name, .destroyReq name]⟩)
    ∧ (d.shutdownFails = false → d.respondsAfter = none → d.pollInfoFailsAt = none →
       d.destroyFails = false →
        stop_vm w name = ⟨.ok (), setDomState w name .shutOff,
          [.snapshotAttempt name, .shutdownReq name, .destroyReq name]⟩)
    ∧ (∀ e, (stop_vm w name).result = .error e →
        e = .libvirtError ∧ (d.pollInfoFailsAt ≠ none ∨ d.destroyFails = true)) := by
  refine ⟨?_, ?_, ?_, ?_, ?_⟩
  · intro b1 b2
    have hl2 : lookupDom { w with virshMissing := b1, snapshotCmdFails := b2 } name
        = some d := hl
    cases hp : pollForShutoff d (!d.shutdownFails) 0 stopTimeoutSec <;>
      cases hdf : d.destroyFails <;>
        simp [stop_vm, hl, hl2, hi, hs, hp, hdf]
  · cases hp : pollForShutoff d (!d.shutdownFails) 0 stopTimeoutSec <;>
      cases hdf : d.destroyFails <;>
        simp [stop_vm, hl, hi, hs, hp, hdf]
  · intro hsf hp hdf
    have hb : (!d.shutdownFails) = false := by rw [hsf]; rfl
    have hpoll : pollForShutoff d (!d.shutdownFails) 0 stopTimeoutSec = .timedOut := by
      rw [hb]
      exact pollForShutoff_timedOut d false hp (by simp) 0 stopTimeoutSec
    simp [stop_vm, hl, hi, hs, hpoll, hdf]
  · intro hsf hr hp hdf
    have hpoll : pollForShutoff d (!d.shutdownFails) 0 stopTimeoutSec = .timedOut :=
      pollForShutoff_timedOut d (!d.shutdownFails) hp
        (by intro i; simp [guestShutoffBy, hr]) 0 stopTimeoutSec
    simp [stop_vm, hl, hi, hs, hpoll, hdf]
  · intro e he
    cases hp : pollForShutoff d (!d.shutdownFails) 0 stopTimeoutSec with
    | graceful => simp [stop_vm, hl, hi, hs, hp] at he
    | inspectFail =>
      simp [stop_vm, hl, hi, hs, hp] at he
      exact ⟨he.symm, Or.inl (pollForShutoff_inspectFail d (!d.shutdownFails)
        0 stopTimeoutSec hp)⟩
    | timedOut =>
      cases hdf : d.destroyFails with
      | true =>
        simp [stop_vm, hl, hi, hs, hp, hdf] at he
        exact ⟨he.symm, Or.inr rfl⟩
      | false => simp [stop_vm, hl, hi, hs, hp, hdf] at he

/-- C5 counterexample: a `dom.info()` failure during the poll loop surfaces
as a fatal hypervisor error even though the forced power-off was never
attempted, let alone failed — refuting "only a failure of the final forced
power-off surfaces as a fatal HypervisorError". -/
theorem stop_poll_inspect_fatal_cex :
    (stop_vm worldPollFail "lab1").result = .error .libvirtError
    ∧ Ev.destroyReq "lab1" ∉ (stop_vm worldPollFail "lab1").events := by
  decide

/-- C5 witness: the scenario — a guest that ignores graceful shutdown ends
in a forced destroy with final state shut off. -/
theorem stop_vm_escalation_witness :
    stop_vm worldStubborn "lab1"
      = ⟨.ok (), setDomState worldStubborn "lab1" .shutOff,
         [.snapshotAttempt "lab1", .shutdownReq "lab1", .destroyReq "lab1"]⟩ :=
  ((stop_vm_escalation worldStubborn "lab1"
      { benignDom with state := .running, respondsAfter := none }
      (by decide) (by decide) (by decide)).2.2.2.1)
    (by decide) (by decide) (by decide) (by decide)

/-- A poll iteration whose inspection succeeds and that observes the guest
shut off reports graceful success immediately. -/
theorem pollForShutoff_graceful_now (d : DomBehavior) (i fuel : Nat)
    (hp : d.pollInfoFailsAt ≠ some i) (hg : guestShutoffBy d i = true)
    (hf : fuel ≠ 0) :
    pollForShutoff d true i fuel = .graceful := by
  cases fuel with
  | zero => exact absurd rfl hf
  | succ f => simp [pollForShutoff, hp, hg]

/-- Stopping a freshly created, running pool VM whose guest answers the
shutdown request immediately succeeds gracefully. -/
theorem stop_vm_fresh (w' : World) (name : String) (d : DomBehavior)
    (hl : lookupDom w' name = some d) (hi : d.infoFails = false)
    (hsd : d.shutdownFails = false) (hpi : d.pollInfoFailsAt = none)
    (hra : d.respondsAfter = some 0) (hs : d.state = .running) :
    stop_vm w' name
      = ⟨.ok (), setDomState w' name .shutOff,
         [.snapshotAttempt name, .shutdownReq name]⟩ := by
  have hb : (!d.shutdownFails) = true := by rw [hsd]; rfl
  have hpoll : pollForShutoff d (!d.shutdownFails) 0 stopTimeoutSec = .graceful := by
    rw [hb]
    exact pollForShutoff_graceful_now d 0 stopTimeoutSec (by simp [hpi])
      (by simp [guestShutoffBy, hra]) (by decide)
  simp [stop_vm, hl, hi, hs, hpoll]

/-- Recreating a missing pool slot under a healthy environment: orphan-free
create with default sizing and owner `pool`, then a graceful stop. -/
theorem poolRecreateSlot_ok (w : World) (name : String)
    (h1 : lookupDom w name = none) (h2 : hasDisk w name = false)
    (h3 : w.baseImage = true) (h4 : w.copyFails = false) (h5 : w.defineFails = false)
    (h6 : w.freshDom.createFails = false) (h7 : w.freshDom.infoFails = false)
    (h8 : w.freshDom.shutdownFails = false) (h9 : w.freshDom.pollInfoFailsAt = none)
    (h10 : w.freshDom.respondsAfter = some 0) :
    poolRecreateSlot w name
      = ⟨.ok (),
         setDomState (setDomState (addDom (bumpUuid (addDisk w name)) name
             { w.freshDom with state := .shutOff }) name .running) name .shutOff,
         [.diskCopy name, .defineReq name, .powerOnReq name,
          .vmCreate name defaultMemoryMb defaultVcpu (some "pool"),
          .snapshotAttempt name, .shutdownReq name]⟩ := by
  have hc : create_vm w name (some defaultMemoryMb) (some defaultVcpu) (some "pool")
      = ⟨.ok { name := name, uuid := w.nextUuid, image := diskImagePath name,
               memory_mb := defaultMemoryMb, vcpus := defaultVcpu, owner := some "pool" },
         setDomState (addDom (bumpUuid (addDisk w name)) name
             { w.freshDom with state := .shutOff }) name .running,
         [.diskCopy name, .defineReq name, .powerOnReq name,
          .vmCreate name defaultMemoryMb defaultVcpu (some "pool")]⟩ := by
    simp [create_vm, h1, clone_base_image, h2, h3, h4, addDisk, bumpUuid, addDom,
      h5, h6, defaultMemoryMb, defaultVcpu, setDomState]
  have hl' : lookupDom (setDomState (addDom (bumpUuid (addDisk w name)) name
        { w.freshDom with state := .shutOff }) name .running) name
      = some { w.freshDom with state := .running } := by
    rw [lookupDom_setDomState_self]
    simp [lookupDom, addDom, bumpUuid, addDisk, domsLookup]
  have hstop := stop_vm_fresh _ name { w.freshDom with state := .running } hl'
    h7 h8 h9 h10 rfl
  simp [poolRecreateSlot, h2, hc, hstop]

/-- With an orphan disk present, `poolRecreateSlot` first removes it and
then behaves like the recreation on the cleaned world. -/
theorem poolRecreateSlot_orphan_step (w : World) (name : String)
    (h2 : hasDisk w name = true) :
    poolRecreateSlot w name
      = ⟨(poolRecreateSlot (removeDisk w name) name).result,
         (poolRecreateSlot (removeDisk w name) name).world,
         Ev.diskRemove name :: (poolRecreateSlot (removeDisk w name) name).events⟩ := by
  have h2' : hasDisk (removeDisk w name) name = false := by
    simp [hasDisk, removeDisk, diskMem_remove]
  rcases hcr : create_vm (removeDisk w name) name (some defaultMemoryMb)
      (some defaultVcpu) (some "pool") with ⟨res, w2, evs2⟩
  cases res with
  | error e => simp [poolRecreateSlot, h2, h2', hcr]
  | ok info =>
    rcases hst : stop_vm w2 name with ⟨r3, w3, evs3⟩
    simp [poolRecreateSlot, h2, h2', hcr, hst]

/-- Recreating a missing pool slot that left an orphan disk behind: the
orphan is removed first, then the default-sized pool-owned create and the
stop run on the cleaned world. -/
theorem poolRecreateSlot_ok_orphan (w : World) (name : String)
    (h1 : lookupDom w name = none) (h2 : hasDisk w name = true)
    (h3 : w.baseImage = true) (h4 : w.copyFails = false) (h5 : w.defineFails = false)
    (h6 : w.freshDom.createFails = false) (h7 : w.freshDom.infoFails = false)
    (h8 : w.freshDom.shutdownFails = false) (h9 : w.freshDom.pollInfoFailsAt = none)
    (h10 : w.freshDom.respondsAfter = some 0) :
    poolRecreateSlot w name
      = ⟨.ok (),
         setDomState (setDomState (addDom (bumpUuid (addDisk (removeDisk w name) name))
             name { w.freshDom with state := .shutOff }) name .running) name .shutOff,
         Ev.diskRemove name
           :: [.diskCopy name, .defineReq name, .powerOnReq name,
               .vmCreate name defaultMemoryMb defaultVcpu (some "pool"),
               .snapshotAttempt name, .shutdownReq name]⟩ := by
  have h1' : lookupDom (removeDisk w name) name = none := h1
  have h2' : hasDisk (removeDisk w name) name = false := by
    simp [hasDisk, removeDisk, diskMem_remove]
  have hclean := poolRecreateSlot_ok (removeDisk w name) name h1' h2' h3 h4 h5 h6
    h7 h8 h9 h10
  rw [poolRecreateSlot_orphan_step w name h2, hclean]
  rfl

/-- `get_available_vm` hands back no name exactly when every slot's attempt,
scanned in order with the side effects of failed recreations carried
forward, hits one of the error paths. -/
theorem getAvailableVm_none_iff :
    ∀ (pool : List String) (w : World),
      (getAvailableVm w pool).1 = none ↔ poolAllFail w pool = true := by
  intro pool
  induction pool with
  | nil => intro w; simp [getAvailableVm, poolAllFail]
  | cons n rest ih =>
    intro w
    cases hl : lookupDom w n with
    | none =>
      rcases hres : ensurePoolVmExistsAndStopped w n with ⟨res, w1, evs⟩
      cases res with
      | ok u =>
        simp [getAvailableVm, hl, hres, poolAllFail, slotAttemptFails, Outcome.ok?]
      | error e =>
        have hih := ih w1
        rcases hX : getAvailableVm w1 rest with ⟨r, w2, evs2⟩
        rw [hX] at hih
        simpa [getAvailableVm, hl, hres, hX, poolAllFail, slotAttemptFails,
          slotFailWorld, Outcome.ok?] using hih
    | some d =>
      cases hi : d.infoFails with
      | true =>
        have hih := ih w
        rcases hX : getAvailableVm w rest with ⟨r, w2, evs2⟩
        rw [hX] at hih
        simpa [getAvailableVm, hl, hi, hX, poolAllFail, slotAttemptFails,
          slotFailWorld] using hih
      | false =>
        by_cases hs : d.state = PowerState.shutOff
        · simp [getAvailableVm, hl, hi, hs, poolAllFail, slotAttemptFails,
            slotFailWorld]
        · cases hsf : d.shutdownFails with
          | false =>
            simp [getAvailableVm, hl, hi, hs, hsf, poolAllFail, slotAttemptFails,
              slotFailWorld]
          | true =>
            cases hdf : d.destroyFails with
            | false =>
              simp [getAvailableVm, hl, hi, hs, hsf, hdf, poolAllFail,
                slotAttemptFails, slotFailWorld]
            | true =>
              have hih := ih w
              rcases hX : getAvailableVm w rest with ⟨r, w2, evs2⟩
              rw [hX] at hih
              simpa [getAvailableVm, hl, hi, hs, hsf, hdf, hX, poolAllFail,
                slotAttemptFails, slotFailWorld] using hih

/-- C3 (amended).  `getAvailable` scans slots in order.  For the first slot
whose domain is missing it reconciles synchronously — any orphaned disk at
the slot's path is removed first, a fresh VM is created with default sizing
and owner `pool`, then stopped — and returns that name with the slot shut
off.  For the first slot whose domain exists and is shut off it returns the
name with no action.  For the first slot whose domain exists in any other
state it merely ISSUES a graceful-shutdown request — escalating to forced
destroy only if that request itself raises — and returns the name
immediately, without waiting for (hence without ensuring) the ShutOff
state.  It returns no name exactly when every slot's attempt, in order,
raised an error. -/
theorem pool_get_available_behavior (w : World) (name : String) (rest : List String) :
    (lookupDom w name = none → w.baseImage = true →
     w.copyFails = false → w.defineFails = false → w.freshDom.createFails = false →
     w.freshDom.infoFails = false → w.freshDom.shutdownFails = false →
     w.freshDom.pollInfoFailsAt = none → w.freshDom.respondsAfter = some 0 →
        (getAvailableVm w (name :: rest)).1 = some name
        ∧ domState (getAvailableVm w (name :: rest)).2.1 name = some .shutOff
        ∧ hasDisk (getAvailableVm w (name :: rest)).2.1 name = true
        ∧ Ev.vmCreate name defaultMemoryMb defaultVcpu (some "pool")
            ∈ (getAvailableVm w (name :: rest)).2.2
        ∧ (hasDisk w name = true →
            Ev.diskRemove name ∈ (getAvailableVm w (name :: rest)).2.2))
    ∧ (∀ d, lookupDom w name = some d → d.infoFails = false → d.state = .shutOff →
        getAvailableVm w (name :: rest) = (some name, w, []))
    ∧ (∀ d, lookupDom w name = some d → d.infoFails = false → d.state ≠ .shutOff →
       d.shutdownFails = false →
        (getAvailableVm w (name :: rest)).1 = some name
        ∧ (getAvailableVm w (name :: rest)).2.2 = [Ev.shutdownReq name]
        ∧ domState (getAvailableVm w (name :: rest)).2.1 name
            = some (if guestShutoffBy d 0 then .shutOff else .shuttingDown))
    ∧ (∀ d, lookupDom w name = some d → d.infoFails = false → d.state ≠ .shutOff →
       d.shutdownFails = true → d.destroyFails = false →
        getAvailableVm w (name :: rest)
          = (some name, setDomState w name .shutOff,
             [Ev.shutdownReq name, Ev.destroyReq name]))
    ∧ (∀ pool : List String,
        (getAvailableVm w pool).1 = none ↔ poolAllFail w pool = true) := by
  refine ⟨?_, ?_, ?_, ?_, fun pool => getAvailableVm_none_iff pool w⟩
  · intro h1 h3 h4 h5 h6 h7 h8 h9 h10
    by_cases h2 : hasDisk w name
    · have hrec := poolRecreateSlot_ok_orphan w name h1 h2 h3 h4 h5 h6 h7 h8 h9 h10
      have hens : ensurePoolVmExistsAndStopped w name = poolRecreateSlot w name := by
        simp [ensurePoolVmExistsAndStopped, h1]
      have hga : getAvailableVm w (name :: rest)
          = (some name, (poolRecreateSlot w name).world,
             (poolRecreateSlot w name).events) := by
        simp [getAvailableVm, h1, hens, hrec]
      rw [hga, hrec]
      refine ⟨rfl, ?_, ?_, by simp, fun _ => by simp⟩
      · simp [domState, lookupDom, setDomState, addDom, bumpUuid, addDisk,
          domsSetState, domsLookup]
      · simp [hasDisk, setDomState, addDom, bumpUuid, addDisk, diskMem]
    · have h2f : hasDisk w name = false := by simpa using h2
      have hrec := poolRecreateSlot_ok w name h1 h2f h3 h4 h5 h6 h7 h8 h9 h10
      have hens : ensurePoolVmExistsAndStopped w name = poolRecreateSlot w name := by
        simp [ensurePoolVmExistsAndStopped, h1]
      have hga : getAvailableVm w (name :: rest)
          = (some name, (poolRecreateSlot w name).world,
             (poolRecreateSlot w name).events) := by
        simp [getAvailableVm, h1, hens, hrec]
      rw [hga, hrec]
      refine ⟨rfl, ?_, ?_, by simp, fun habs => absurd habs (by simp [h2f])⟩
      · simp [domState, lookupDom, setDomState, addDom, bumpUuid, addDisk,
          domsSetState, domsLookup]
      · simp [hasDisk, setDomState, addDom, bumpUuid, addDisk, diskMem]
  · intro d hl hi hs
    simp [getAvailableVm, hl, hi, hs]
  · intro d hl hi hs hsf
    have hga : getAvailableVm w (name :: rest)
        = (some name,
           setDomState w name (if guestShutoffBy d 0 then .shutOff else .shuttingDown),
           [Ev.shutdownReq name]) := by
      simp [getAvailableVm, hl, hi, hs, hsf]
    rw [hga]
    refine ⟨rfl, rfl, ?_⟩
    rw [domState, lookupDom_setDomState_self, hl]
    rfl
  · intro d hl hi hs hsf hdf
    simp [getAvailableVm, hl, hi, hs, hsf, hdf]

/-- C3 counterexample: with one existing pool slot running a guest that
ignores graceful shutdown, `getAvailable` returns the slot while its domain
is still shutting down — it did not ensure ShutOff before returning —
refuting "it ensures the VM is in ShutOff state before returning the
name". -/
theorem pool_returns_without_shutoff_cex :
    (getAvailableVm worldPoolBusy ["pool-vm-1"]).1 = some "pool-vm-1"
    ∧ domState (getAvailableVm worldPoolBusy ["pool-vm-1"]).2.1 "pool-vm-1"
        = some .shuttingDown
    ∧ domState (getAvailableVm worldPoolBusy ["pool-vm-1"]).2.1 "pool-vm-1"
        ≠ some .shutOff := by
  decide

/-- C3 witness: both pool slots' domains undefined, a stale orphan disk left
for `pool-vm-1`; `getAvailable` removes the orphan, recreates the slot with
the pool-owned default-sized create, and returns `pool-vm-1` shut off. -/
theorem pool_get_available_behavior_witness :
    (getAvailableVm worldOrphan ["pool-vm-1", "pool-vm-2"]).1 = some "pool-vm-1"
    ∧ domState (getAvailableVm worldOrphan ["pool-vm-1", "pool-vm-2"]).2.1 "pool-vm-1"
        = some .shutOff
    ∧ hasDisk (getAvailableVm worldOrphan ["pool-vm-1", "pool-vm-2"]).2.1 "pool-vm-1"
        = true
    ∧ Ev.vmCreate "pool-vm-1" defaultMemoryMb defaultVcpu (some "pool")
        ∈ (getAvailableVm worldOrphan ["pool-vm-1", "pool-vm-2"]).2.2
    ∧ Ev.diskRemove "pool-vm-1"
        ∈ (getAvailableVm worldOrphan ["pool-vm-1", "pool-vm-2"]).2.2 := by
  have h := (pool_get_available_behavior worldOrphan "pool-vm-1" ["pool-vm-2"]).1
    (by decide) (by decide) (by decide) (by decide) (by decide) (by decide)
    (by decide) (by decide) (by decide)
  exact ⟨h.1, h.2.1, h.2.2.1, h.2.2.2.1, h.2.2.2.2 (by decide)⟩

/-- C8: with monotone wall-clock timestamps, a connected session's recording
is exactly one header line followed by one `[ts, dir, payload]` event line
per chunk in forwarding order; event timestamps are non-decreasing; each
direction's recorded-event count equals its forwarded-chunk count; and in
every prefix of the pump trace nothing is forwarded before it is
recorded. -/
theorem terminal_recording_format (w : World) (cfg : SshConfig) (env : TermEnv)
    (name : String) (owner : Option String) (t : Nat)
    (hconn : env.connectFails = false)
    (hmono : List.Chain' (fun a b : Chunk => a.ts ≤ b.ts) env.schedule) :
    (vm_terminal w cfg env name owner t).1
        = sessionHeader t name owner :: env.schedule.map eventLine
    ∧ List.Chain' (fun a b : RecLine => lineTs a ≤ lineTs b)
        (List.drop 1 (vm_terminal w cfg env name owner t).1)
    ∧ (∀ d : Dir, countRec (pumpTrace env.schedule) d = countFwd (pumpTrace env.schedule) d)
    ∧ (∀ (k : Nat) (d : Dir),
        countFwd (List.take k (pumpTrace env.schedule)) d
          ≤ countRec (List.take k (pumpTrace env.schedule)) d)
    ∧ (∀ d : Dir, countFwd (pumpTrace env.schedule) d
          = (env.schedule.filter fun c => decide (c.dir = d)).length) := by
  have hfile : (vm_terminal w cfg env name owner t).1
      = sessionHeader t name owner :: env.schedule.map eventLine := by
    simp [vm_terminal, hconn, traceRecording_pumpTrace]
  refine ⟨hfile, ?_, ?_, ?_, ?_⟩
  · rw [hfile]
    simp only [List.drop_succ_cons, List.drop_zero]
    rw [List.chain'_map]
    simpa [eventLine, lineTs] using hmono
  · intro d
    rw [countRec_pumpTrace, countFwd_pumpTrace]
  · intro k d
    exact countFwd_take_le_countRec env.schedule k d
  · intro d
    rw [countFwd_pumpTrace]

/-- C8 witness: a concrete two-chunk session. -/
theorem terminal_recording_format_witness :
    (vm_terminal baseWorld shippedSshConfig sampleTermEnv "lab1" (some "alice") 0).1
      = sessionHeader 0 "lab1" (some "alice") :: sampleTermEnv.schedule.map eventLine :=
  (terminal_recording_format baseWorld shippedSshConfig sampleTermEnv "lab1"
    (some "alice") 0 (by decide)
    (by simp [sampleTermEnv, List.chain'_cons, List.chain'_singleton])).1

/-- C9: the credential store holds at most one value, reached only through
the atomic set/get/clear transitions; the provisioning step's result and
every `log_event` line it emits are independent of the stored password
(noninterference); the executed command receives the become-password
arguments while the logged command line is `' '.join(cmd)` — the base
command without them. -/
theorem ansible_credential_secrecy (s s1 s2 : AnsibleStore) (p : String)
    (r : Option RunResult) (vm : String) :
    get_password (set_password s p) = some p
    ∧ get_password (clear_password s) = none
    ∧ (s = none ∨ ∃ q, s = some q)
    ∧ (configure_vm_with_ansible s1 r vm).logs = (configure_vm_with_ansible s2 r vm).logs
    ∧ (configure_vm_with_ansible s1 r vm).result
        = (configure_vm_with_ansible s2 r vm).result
    ∧ (configure_vm_with_ansible s1 r vm).executed
        = ansibleBaseCmd vm ++ ansibleExtraArgs s1
    ∧ (configure_vm_with_ansible s1 r vm).logs.head?
        = some ("[ansible] Running playbook for VM " ++ vm ++ ": "
            ++ String.intercalate " " (ansibleBaseCmd vm)) := by
  refine ⟨rfl, rfl, ?_, ?_, ?_, ?_, ?_⟩
  · cases s with
    | none => exact Or.inl rfl
    | some q => exact Or.inr ⟨q, rfl⟩
  · cases r with
    | none => rfl
    | some rr =>
      by_cases h : rr.returncode = 0 <;> simp [configure_vm_with_ansible, h]
  · cases r with
    | none => rfl
    | some rr =>
      by_cases h : rr.returncode = 0 <;> simp [configure_vm_with_ansible, h]
  · cases r with
    | none => rfl
    | some rr =>
      by_cases h : rr.returncode = 0 <;>
        simp [configure_vm_with_ansible, ansibleFullCmd, get_password, h]
  · cases r with
    | none => rfl
    | some rr =>
      by_cases h : rr.returncode = 0 <;> simp [configure_vm_with_ansible, h]

/-- C10: resolving the remote-shell target never consults the hypervisor
state: the whole terminal session's behaviour is identical across worlds,
and in a world where the named domain does not exist the session still
opens (header written) and can only fail at SSH connect time — there is no
`NotFound` path. -/
theorem terminal_target_resolution (w1 w2 : World) (cfg : SshConfig) (env : TermEnv)
    (name : String) (owner : Option String) (t : Nat)
    (_hmissing : lookupDom w1 name = none) :
    vm_terminal w1 cfg env name owner t = vm_terminal w2 cfg env name owner t
    ∧ ((vm_terminal w1 cfg env name owner t).2 = .sshError ↔ env.connectFails = true)
    ∧ (vm_terminal w1 cfg env name owner t).1.head? = some (sessionHeader t name owner)
    ∧ get_vm_ssh_target cfg name
        = { host := cfg.hostTemplate.replace "\x7bname\x7d" name, port := cfg.port,
            username := cfg.username, keyPath := cfg.keyPath } := by
  refine ⟨rfl, ?_, ?_, rfl⟩
  · cases hc : env.connectFails <;> simp [vm_terminal, hc]
  · cases hc : env.connectFails <;> simp [vm_terminal, hc]

/-- C10 witness: a terminal session toward the nonexistent VM `ghost` still
starts and records its header. -/
theorem terminal_target_resolution_witness :
    (vm_terminal baseWorld shippedSshConfig sampleTermEnv "ghost" none 7).1.head?
      = some (sessionHeader 7 "ghost" none) :=
  (terminal_target_resolution baseWorld baseWorld shippedSshConfig sampleTermEnv
    "ghost" none 7 (by decide)).2.2.1

/-- C7 witness: the scenario — `create("lab1", 1024, 2, "alice")` then
`start("lab1")` while it is already running returns `Conflict`. -/
theorem start_vm_behavior_witness :
    start_vm (create_vm baseWorld "lab1" (some 1024) (some 2) (some "alice")).world "lab1"
      = ⟨.error .conflict,
         (create_vm baseWorld "lab1" (some 1024) (some 2) (some "alice")).world, []⟩ :=
  (((start_vm_behavior
      (create_vm baseWorld "lab1" (some 1024) (some 2) (some "alice")).world
      "lab1").2 { benignDom with state := .running } (by decide) (by decide)).1)
    (by decide)

end VmManager
